import Mathlib

/-!
Verification of the LLM gateway / orchestration core of the
ollama-telegram-bot repository: a shallow embedding in Lean 4 of the
routing, retry, payload-composition, capability-cache, fallback,
orchestration and download-reporting logic of
`src/services/ollama_client.py`, `src/services/model_orchestrator.py`
and `src/bot/handlers.py`, together with theorems about it.
-/

namespace OllamaBot

/-! ## Python string primitives

The embedding works on `String` via its character list, with executable
(kernel-reducible) counterparts of the Python `str` methods the source
uses: `strip`, `lower`, `endswith`, slicing, `in` (substring) and
`join`. -/

/-- Python whitespace (`str.strip` / `\s`): ASCII whitespace plus the
no-break space. -/
def isWsChar (c : Char) : Bool :=
  c = ' ' || c = '\t' || c = '\n' || c = '\r' ||
    c = Char.ofNat 11 || c = Char.ofNat 12 || c = Char.ofNat 160

/-- Python `str.strip()`. -/
def pyStrip (s : String) : String :=
  ⟨((s.toList.dropWhile isWsChar).reverse.dropWhile isWsChar).reverse⟩

/-- Python `str.lower()` (ASCII case folding; every non-ASCII character
in the strings under study is already lower case). -/
def pyLower (s : String) : String :=
  ⟨s.toList.map Char.toLower⟩

/-- Python `str.endswith(suffix)`. -/
def pyEndsWith (s suffix : String) : Bool :=
  suffix.toList.isSuffixOf s.toList

/-- Python slicing `s[:n]`. -/
def pyTake (s : String) (n : Nat) : String :=
  ⟨s.toList.take n⟩

/-- Whether `sub` occurs as a contiguous run inside `l`. -/
def listHasRun (sub : List Char) : List Char → Bool
  | [] => decide (sub = [])
  | c :: cs => sub.isPrefixOf (c :: cs) || listHasRun sub cs

/-- Python substring membership `sub in s`. -/
def pyContains (s sub : String) : Bool :=
  listHasRun sub.toList s.toList

/-- Python `sep.join(xs)` on character lists. -/
def pyJoinChars (sep : List Char) : List (List Char) → List Char
  | [] => []
  | [x] => x
  | x :: xs => x ++ sep ++ pyJoinChars sep xs

/-- Python `sep.join(xs)`. -/
def pyJoin (sep : String) (xs : List String) : String :=
  ⟨pyJoinChars sep.toList (xs.map String.toList)⟩

/-! ## Data model -/

/-- Embeds `ConversationTurn` from `src/core/context_store.py`:
`role : str`, `content : str`, `images : list[str] | None`. -/
structure ConversationTurn where
  role : String
  content : String
  images : Option (List String) := none
deriving Repr, DecidableEq

/-- One message object of the `/api/chat` payload as built by
`OllamaClient._compose_messages`; `images = none` models the `images`
key being absent from the dict. -/
structure ChatMessage where
  role : String
  content : String
  images : Option (List String) := none
deriving Repr, DecidableEq

/-! ## Endpoint routing (`OllamaClient.__init__`, `_is_cloud_model`,
`can_use_cloud_model`, `_target_base_url`, `_request_headers`) -/

/-- Embeds the constructor state of `OllamaClient`: `base_url`,
`cloud_base_url`, `api_key : str | None`, `auth_scheme`.  The timeout and
retry count are threaded separately where needed. -/
structure ClientCfg where
  base_url : String
  cloud_base_url : String
  api_key : Option String
  auth_scheme : String
deriving Repr, DecidableEq

/-- Python truthiness of `self._api_key` (`bool(self._api_key)`): `None`
and the empty string are falsy. -/
def apiKeyTruthy (cfg : ClientCfg) : Bool :=
  match cfg.api_key with
  | none => false
  | some s => decide (s ≠ "")

/-- Python truthiness of an `str | None` value such as the `model`
argument of `_request_headers`. -/
def strTruthy : Option String → Bool
  | none => false
  | some s => decide (s ≠ "")

/-- Embeds `OllamaClient._is_cloud_model`:
`model.strip().lower().endswith("-cloud")`. -/
def is_cloud_model (model : String) : Bool :=
  pyEndsWith (pyLower (pyStrip model)) "-cloud"

/-- Embeds `OllamaClient.can_use_cloud_model`:
`self._is_cloud_model(model) and bool(self._api_key)`. -/
def can_use_cloud_model (cfg : ClientCfg) (model : String) : Bool :=
  is_cloud_model model && apiKeyTruthy cfg

/-- Embeds `OllamaClient._target_base_url(model=None)`. -/
def target_base_url (cfg : ClientCfg) (model : Option String) : String :=
  if strTruthy model && can_use_cloud_model cfg (model.getD "") then
    cfg.cloud_base_url
  else
    cfg.base_url

/-- Embeds `OllamaClient._request_headers(model=None)`.  Returns the
`Authorization` header pair, or `none` when no header dict is sent.
Note the second branch tests `model is None` (not truthiness). -/
def request_headers (cfg : ClientCfg) (model : Option String) :
    Option (String × String) :=
  if strTruthy model && can_use_cloud_model cfg (model.getD "") then
    some ("Authorization", cfg.auth_scheme ++ " " ++ cfg.api_key.getD "")
  else if model.isNone && apiKeyTruthy cfg &&
      (cfg.base_url == cfg.cloud_base_url) then
    some ("Authorization", cfg.auth_scheme ++ " " ++ cfg.api_key.getD "")
  else
    none

/-- The URL and auth header used by `OllamaClient.generate`: the client is
constructed with `headers=self._request_headers()` — no model argument —
while the URL is `self._target_base_url(model) + "/api/generate"`. -/
def generate_request (cfg : ClientCfg) (model : String) :
    String × Option (String × String) :=
  (target_base_url cfg (some model) ++ "/api/generate",
   request_headers cfg none)

/-- The URL and auth header used by `OllamaClient.chat` (and
`chat_with_image`): `headers=self._request_headers(model)`, URL
`self._target_base_url(model) + "/api/chat"`. -/
def chat_request (cfg : ClientCfg) (model : String) :
    String × Option (String × String) :=
  (target_base_url cfg (some model) ++ "/api/chat",
   request_headers cfg (some model))

/-- The URL and auth header used by `OllamaClient.supports_vision`:
`headers=self._request_headers(model)`, URL
`self._target_base_url(model) + "/api/show"`. -/
def show_request (cfg : ClientCfg) (model : String) :
    String × Option (String × String) :=
  (target_base_url cfg (some model) ++ "/api/show",
   request_headers cfg (some model))

/-! ## Payload composition (`_compose_prompt`, `_compose_messages`) -/

/-- The role label chosen by the `if/elif` chain in
`OllamaClient._compose_prompt`: every role other than `system`, `tool`
and `user` — including unknown roles — falls into the final `else` and is
labelled `Assistant`. -/
def roleLabel (role : String) : String :=
  if role = "system" then "System"
  else if role = "tool" then "Tool"
  else if role = "user" then "User"
  else "Assistant"

/-- The `context_lines` accumulation loop of `_compose_prompt`. -/
def composeLines : List ConversationTurn → List String
  | [] => []
  | t :: ts => (roleLabel t.role ++ ": " ++ t.content) :: composeLines ts

/-- Embeds `OllamaClient._compose_prompt`. -/
def compose_prompt (prompt : String) (context_turns : List ConversationTurn) :
    String :=
  if context_turns.isEmpty then prompt
  else
    pyJoin "\n"
      (composeLines context_turns ++ ["User: " ++ prompt, "Assistant:"])

/-- The set membership test of `_compose_messages`:
`turn.role in ("system", "user", "assistant", "tool")` as a set literal. -/
def knownRole (role : String) : Bool :=
  role = "system" || role = "user" || role = "assistant" || role = "tool"

/-- The history loop of `_compose_messages`: unknown roles `continue`,
known roles are emitted as text-only message objects. -/
def composeHistory : List ConversationTurn → List ChatMessage
  | [] => []
  | t :: ts =>
    if knownRole t.role then
      ⟨t.role, t.content, none⟩ :: composeHistory ts
    else
      composeHistory ts

/-- Embeds `OllamaClient._compose_messages`: history turns, then the live
user turn; `if prompt_images:` attaches the `images` key only when the
argument is truthy (non-`None` and non-empty). -/
def compose_messages (prompt : String) (context_turns : List ConversationTurn)
    (prompt_images : Option (List String)) : List ChatMessage :=
  let current : ChatMessage :=
    match prompt_images with
    | some imgs => if imgs.isEmpty then ⟨"user", prompt, none⟩
                   else ⟨"user", prompt, some imgs⟩
    | none => ⟨"user", prompt, none⟩
  composeHistory context_turns ++ [current]

/-! ## Retry loop (`generate`, `chat`, `list_models`, `_generate_with_image`)

Each of these methods runs `for attempt in range(self._retries + 1)` around
one HTTP attempt.  The transport outcome of attempt `i` is abstracted as
`f i`; a 2xx response carries the extracted text field (`response` for
generate, `message.content` for chat) as produced by `str(...)`. -/

/-- Outcome of one HTTP attempt as seen by the `except` clauses:
2xx success with the extracted text field, `httpx.TimeoutException`,
`httpx.RequestError`, or `httpx.HTTPStatusError` with status and body. -/
inductive AttemptOutcome where
  | success (text : String)
  | timeout
  | connError
  | httpError (status : Nat) (body : String)
deriving Repr, DecidableEq

/-- The value a call settles on: a returned `OllamaResponse`, or one of the
typed errors `OllamaTimeoutError`, `OllamaConnectionError`, `OllamaError`
with the exception message. -/
inductive CallResult where
  | ok (text : String)
  | timeoutErr (msg : String)
  | connectionErr (msg : String)
  | ollamaErr (msg : String)
deriving Repr, DecidableEq

/-- The generic error message for a non-2xx status:
`f"Ollama returned HTTP <status>: <body[:300]>"`. -/
def httpMsg (status : Nat) (body : String) : String :=
  "Ollama returned HTTP " ++ toString status ++ ": " ++ pyTake body 300

/-- The body of the shared retry loop.  `attempt` is the loop index,
`remaining` the number of iterations left (`retries + 1` initially).
Returns the number of HTTP attempts performed and the settled result.
On a timeout or connection error with `attempt < retries` the loop sleeps
and continues; on the last attempt it raises the typed error.  A non-2xx
status raises `OllamaError` immediately; an empty extracted text raises
`OllamaError(emptyMsg)` immediately (uncaught by the `except` clauses). -/
def retryLoopGo (retries : Nat) (f : Nat → AttemptOutcome)
    (timeoutMsg connMsg emptyMsg : String) :
    Nat → Nat → Nat × CallResult
  | _, 0 => (0, .ollamaErr "Unexpected Ollama failure")
  | attempt, r + 1 =>
    match f attempt with
    | .success t =>
      let text := pyStrip t
      if text = "" then (1, .ollamaErr emptyMsg) else (1, .ok text)
    | .timeout =>
      if attempt < retries then
        let next := retryLoopGo retries f timeoutMsg connMsg emptyMsg
          (attempt + 1) r
        (next.1 + 1, next.2)
      else
        (1, .timeoutErr timeoutMsg)
    | .connError =>
      if attempt < retries then
        let next := retryLoopGo retries f timeoutMsg connMsg emptyMsg
          (attempt + 1) r
        (next.1 + 1, next.2)
      else
        (1, .connectionErr connMsg)
    | .httpError s body => (1, .ollamaErr (httpMsg s body))

/-- One full run of the retry loop: `for attempt in range(retries + 1)`. -/
def retryLoop (retries : Nat) (f : Nat → AttemptOutcome)
    (timeoutMsg connMsg emptyMsg : String) : Nat × CallResult :=
  retryLoopGo retries f timeoutMsg connMsg emptyMsg 0 (retries + 1)

/-- The attempt/raise behaviour of `OllamaClient.generate` with its
message strings. -/
def generate_call (retries : Nat) (f : Nat → AttemptOutcome) :
    Nat × CallResult :=
  retryLoop retries f "Ollama request timed out" "Could not reach Ollama"
    "Empty response from Ollama"

/-- The attempt/raise behaviour of `OllamaClient.chat` with its message
strings. -/
def chat_call (retries : Nat) (f : Nat → AttemptOutcome) :
    Nat × CallResult :=
  retryLoop retries f "Ollama chat request timed out" "Could not reach Ollama"
    "Empty chat response from Ollama"

/-! ## `list_models` response processing

`list_models` reads `data.get("models", [])` and for each item takes
`str(item.get("name", "")).strip()`; an item is modelled by its decoded
`name` field (`none` when the key is absent). -/

/-- The name extraction of `OllamaClient.list_models`:
`names = [str(item.get("name", "")).strip() for item in models_raw]` then
`models = [name for name in names if name]`. -/
def list_models_names (models_raw : List (Option String)) : List String :=
  (models_raw.map (fun item => pyStrip (item.getD ""))).filter
    (fun name => name ≠ "")

/-- The value returned by `OllamaClient.list_models` on a 2xx response:
`sorted(models)` — ascending lexicographic sort, no deduplication. -/
def list_models_result (models_raw : List (Option String)) : List String :=
  List.insertionSort (· ≤ ·) (list_models_names models_raw)

/-! ## Capability cache (`supports_vision`) -/

/-- The decoded `/api/show` reply as inspected by `supports_vision`:
`failure` covers any raised exception (transport, HTTP status, JSON
parse); otherwise `capabilities` is the decoded `capabilities` value when
it is a list (`none` when absent or not a list) and `model_info_keys` the
key list of the decoded `model_info` dict (`none` when absent or not a
dict). -/
inductive ShowOutcome where
  | failure
  | ok (capabilities : Option (List String))
       (model_info_keys : Option (List String))
deriving Repr, DecidableEq

/-- The vision-capability cache `self._vision_capability_cache`, an
association list standing for the Python dict (first match wins on
lookup; updates overwrite). -/
def VisionCache := List (String × Bool)

/-- Dict lookup `model in cache` / `cache[model]`. -/
def cacheLookup (cache : VisionCache) (model : String) : Option Bool :=
  match cache with
  | [] => none
  | (k, v) :: rest => if k = model then some v else cacheLookup rest model

/-- Dict update `cache[model] = value`. -/
def cacheInsert (cache : VisionCache) (model : String) (value : Bool) :
    VisionCache :=
  match cache with
  | [] => [(model, value)]
  | (k, v) :: rest =>
    if k = model then (k, value) :: rest else (k, v) :: cacheInsert rest model value

/-- The capability-tag normalisation of `supports_vision`:
`{str(item).strip().lower() for item in capabilities}` membership test for
`"vision"`. -/
def capsHaveVision (caps : List String) : Bool :=
  caps.any (fun item => pyLower (pyStrip item) = "vision")

/-- Python `"vision" in keys_joined or "clip" in keys_joined` on
`" ".join(model_info.keys()).lower()`. -/
def modelInfoHasVision (keys : List String) : Bool :=
  let joined := pyLower (pyJoin " " keys)
  pyContains joined "vision" || pyContains joined "clip"

/-- One call of `OllamaClient.supports_vision`: returns the result
(`some b` definitive, `none` unknown), the cache after the call, and
whether an introspection (`/api/show`) call was performed. -/
def supports_vision_step (cache : VisionCache) (model : String)
    (show_outcome : ShowOutcome) : Option Bool × VisionCache × Bool :=
  match cacheLookup cache model with
  | some b => (some b, cache, false)
  | none =>
    match show_outcome with
    | .failure => (none, cache, true)
    | .ok capabilities model_info_keys =>
      match capabilities with
      | some caps =>
        if capsHaveVision caps then
          (some true, cacheInsert cache model true, true)
        else if !caps.isEmpty then
          (some false, cacheInsert cache model false, true)
        else
          -- empty capability list: fall through to the model_info scan
          match model_info_keys with
          | some keys =>
            if modelInfoHasVision keys then
              (some true, cacheInsert cache model true, true)
            else (none, cache, true)
          | none => (none, cache, true)
      | none =>
        match model_info_keys with
        | some keys =>
          if modelInfoHasVision keys then
            (some true, cacheInsert cache model true, true)
          else (none, cache, true)
        | none => (none, cache, true)

/-! ## Model orchestrator (`src/services/model_orchestrator.py`) -/

/-- Embeds `_CODE_MODEL_PATTERNS`. -/
def code_model_patterns : List String :=
  ["code", "coder", "codegen", "codellama", "starcoder", "deepseek-coder",
   "qwen-coder", "wizard-coder", "phind", "magicoder", "codegemma",
   "codestral", "devstral"]

/-- Embeds `_is_code_model`: any pattern is a substring of the lowercased
name. -/
def is_code_model (name : String) : Bool :=
  code_model_patterns.any (fun p => pyContains (pyLower name) p)

/-- The vision scan loop of `select_model`: first model in list order that
is not the preferred model and whose `supports_vision` answer is
`some true` (`cap` abstracts the capability lookup). -/
def visionScan (preferred : String) (cap : String → Option Bool) :
    List String → Option String
  | [] => none
  | m :: ms =>
    if m = preferred then visionScan preferred cap ms
    else if cap m = some true then some m
    else visionScan preferred cap ms

/-- The code scan loop of `select_model`: first model whose name matches a
code pattern. -/
def codeScan : List String → Option String
  | [] => none
  | m :: ms => if is_code_model m then some m else codeScan ms

/-- Embeds `ModelOrchestrator.select_model`, with the cached inventory
`models` (the value of `await self._get_models()`) and the capability
lookup `cap` (the value of `await self._client.supports_vision(...)`)
passed explicitly.  Returns `(selected_model, changed, found_suitable)`. -/
def select_model (task : String) (preferred_model : String)
    (models : List String) (cap : String → Option Bool) :
    String × Bool × Bool :=
  if task = "general" then (preferred_model, false, true)
  else if task = "vision" then
    if cap preferred_model = some true then (preferred_model, false, true)
    else
      match visionScan preferred_model cap models with
      | some m => (m, true, true)
      | none => (preferred_model, false, false)
  else if task = "code" then
    if is_code_model preferred_model then (preferred_model, false, true)
    else
      match codeScan models with
      | some m => (m, true, true)
      | none => (preferred_model, false, false)
  else (preferred_model, false, true)

/-! ## Inventory cache (`ModelOrchestrator._get_models`) -/

/-- The `_MODELS_CACHE_TTL` constant (seconds). -/
def models_cache_ttl : ℚ := 60

/-- The mutable orchestrator state: `self._models_cache` and
`self._models_cache_at` (monotonic clock values modelled as rationals). -/
structure OrchState where
  models_cache : List String
  models_cache_at : ℚ
deriving Repr, DecidableEq

/-- Outcome of `await self._client.list_models()` inside `_get_models`:
either the fetched list or a raised exception. -/
inductive FetchOutcome where
  | ok (models : List String)
  | failure
deriving Repr, DecidableEq

/-- One call of `ModelOrchestrator._get_models` at monotonic time `now`:
returns the list returned to the caller, the state after the call, and
whether the backend was contacted (`list_models` awaited). -/
def get_models (st : OrchState) (now : ℚ) (fetch : FetchOutcome) :
    List String × OrchState × Bool :=
  if now - st.models_cache_at < models_cache_ttl ∧ st.models_cache ≠ [] then
    (st.models_cache, st, false)
  else
    match fetch with
    | .ok ms => (ms, ⟨ms, now⟩, true)
    | .failure => (st.models_cache, st, true)

/-! ## Download job (`Handlers._background_pull_model` and the cancellable
`pull_model`) -/

/-- Terminal outcome of the awaited pull as seen by the `except` clauses
of `_background_pull_model`: normal return, `asyncio.CancelledError`, a
typed Ollama error, or any other exception. -/
inductive PullOutcome where
  | completed
  | cancelled
  | ollamaFailed (msg : String)
  | unexpectedFailure (msg : String)
deriving Repr, DecidableEq

/-- Which i18n message `_background_pull_model` reports as `result_text`:
`web_models.download_done`, `web_models.download_cancelled`, or
`web_models.download_failed`. -/
inductive ReportKind where
  | done
  | cancelledMsg
  | failed
deriving Repr, DecidableEq

/-- Embeds the `try/except` outcome mapping of
`Handlers._background_pull_model`: a normal return of `pull_model`
reports `download_done`, `asyncio.CancelledError` reports
`download_cancelled`, and both the typed Ollama errors and any other
exception report `download_failed`. -/
def pull_report (outcome : PullOutcome) : ReportKind :=
  match outcome with
  | .completed => .done
  | .cancelled => .cancelledMsg
  | .ollamaFailed _ => .failed
  | .unexpectedFailure _ => .failed

/-- Modelled from the spec: the streaming, cancellable variant of
`OllamaClient.pull_model(model, progress_callback, cancel_event)` that
`Handlers._background_pull_model` calls is absent from
`src/services/ollama_client.py` (the file only contains the plain
non-cancellable `pull_model(model_name)`).  Per §4.7/§5 of the spec, the
coordinator checks the cancel token between progress updates and, when it
is set, stops and terminates as `Cancelled`; otherwise it processes all
progress chunks and terminates as `Completed` or `Failed(error)`.
`cancelSet i` is the state of the cancel token at the `i`-th check,
`nChunks` the number of progress chunks of the stream, and `finalResult`
the outcome of the completed transfer. -/
def pullGo (cancelSet : Nat → Bool) (finalResult : Option String)
    (i : Nat) : Nat → PullOutcome
  | 0 =>
    if cancelSet i then .cancelled
    else
      match finalResult with
      | none => .completed
      | some err => .ollamaFailed err
  | k + 1 =>
    if cancelSet i then .cancelled
    else pullGo cancelSet finalResult (i + 1) k

/-- One full run of the modelled cancellable pull. -/
def pull_model_run (cancelSet : Nat → Bool) (nChunks : Nat)
    (finalResult : Option String) : PullOutcome :=
  pullGo cancelSet finalResult 0 nChunks

/-! ## Regular-expression engine for `_looks_like_missing_image_response`

The detector runs `re.search(pattern, normalized)` for a fixed tuple of
patterns.  The patterns use only: literal characters, alternation groups,
character classes `[..]`, the optional suffix `?`, the bounded wildcard
`.{0,n}`, whitespace runs `\s+`, and word boundaries `\b`.  `RE` below is
an AST covering exactly these constructs and `reSearch` a backtracking
matcher (Python semantics: `.` is any character except newline; `\b` is a
transition between a word and a non-word position). -/

/-- Python `\w` for the alphabets these patterns and inputs range over:
ASCII alphanumerics, underscore, and the accented Latin letters appearing
in the pattern tuple (Python's full Unicode `\w` restricted to the
relevant letters). -/
def isWordChar (c : Char) : Bool :=
  c.isAlphanum || c = '_' ||
    ['á', 'é', 'í', 'ó', 'ú', 'ä', 'ö', 'ü', 'ñ', 'ß', 'ç',
     'à', 'è', 'ì', 'ò', 'ù', 'â', 'ê', 'î', 'ô', 'û'].contains c

/-- Python `.` without `DOTALL`: any character but a newline. -/
def isDotChar (c : Char) : Bool :=
  c ≠ '\n'

/-- Regular-expression AST for the detector's pattern subset. -/
inductive RE where
  | fail
  | eps
  | cls (p : Char → Bool)
  | seq (a b : RE)
  | alt (a b : RE)
  | plus (p : Char → Bool)
  | wb

/-- Python `\b`: exactly one side of the position is a word character
(`prev` is the character before the position, `rest` the remaining
input). -/
def isBoundary (prev : Option Char) (rest : List Char) : Bool :=
  let before := match prev with | some c => isWordChar c | none => false
  let after := match rest with | c :: _ => isWordChar c | [] => false
  before != after

/-- Backtracking match of `\s+`-style one-or-more character classes:
consumes between one and all leading `p`-characters, trying the
continuation after each. -/
def plusK (p : Char → Bool) : Option Char → List Char →
    (Option Char → List Char → Bool) → Bool
  | _, [], _ => false
  | _, c :: cs, k => p c && (k (some c) cs || plusK p (some c) cs k)

/-- Continuation-passing backtracking matcher.  `prev` is the character
just before the current position (for `\b`), `s` the remaining input, and
`k` the continuation receiving the position after the match. -/
def matchRE : RE → Option Char → List Char →
    (Option Char → List Char → Bool) → Bool
  | .fail, _, _, _ => false
  | .eps, prev, s, k => k prev s
  | .cls _, _, [], _ => false
  | .cls p, _, c :: cs, k => p c && k (some c) cs
  | .seq a b, prev, s, k =>
    matchRE a prev s (fun p2 s2 => matchRE b p2 s2 k)
  | .alt a b, prev, s, k => matchRE a prev s k || matchRE b prev s k
  | .plus p, prev, s, k => plusK p prev s k
  | .wb, prev, s, k => isBoundary prev s && k prev s

/-- Try a match at the current position and at every later position
(`re.search` semantics). -/
def searchAux (r : RE) : Option Char → List Char → Bool
  | prev, [] => matchRE r prev [] (fun _ _ => true)
  | prev, c :: cs =>
    matchRE r prev (c :: cs) (fun _ _ => true) || searchAux r (some c) cs

/-- Python `re.search(pattern, s) is not None`. -/
def reSearch (r : RE) (s : String) : Bool :=
  searchAux r none s.toList

/-- Literal single character. -/
def lit (c : Char) : RE := .cls (fun x => x = c)

/-- Literal character sequence. -/
def litStr (s : String) : RE :=
  s.toList.foldr (fun c r => .seq (lit c) r) .eps

/-- Character class `[..]` over an explicit character list. -/
def anyOf (s : String) : RE := .cls (fun c => s.toList.contains c)

/-- Optional suffix `r?`. -/
def opt (r : RE) : RE := .alt .eps r

/-- Bounded wildcard `.{0,n}`. -/
def dotUpTo : Nat → RE
  | 0 => .eps
  | n + 1 => .alt .eps (.seq (.cls isDotChar) (dotUpTo n))

/-- Whitespace run `\s+`. -/
def wsPlus : RE := .plus isWsChar

/-- Sequence of pattern pieces. -/
def seqs (rs : List RE) : RE := rs.foldr .seq .eps

/-- Alternation group `(w1|w2|...)` of literal words. -/
def grp (ws : List String) : RE :=
  (ws.map litStr).foldr .alt .fail

/-- The ASCII apostrophe used inside the English contractions of the
pattern tuple. -/
def apos : Char := Char.ofNat 39

/-! ## The pattern tuple of `_looks_like_missing_image_response` -/

/-- Pattern `\b(send|upload|attach|provide)\b.{0,40}\b(image|photo|picture)\b`. -/
def patEn1 : RE :=
  seqs [.wb, grp ["send", "upload", "attach", "provide"], .wb, dotUpTo 40,
    .wb, grp ["image", "photo", "picture"], .wb]

/-- Pattern matching `cannot`, the `can`-apostrophe-`t` contraction, or
`unable to`, then `.{0,30}`, a perception verb, `.{0,40}`, and an image
noun, all with word boundaries. -/
def patEn2 : RE :=
  seqs [.wb,
    .alt (litStr "cannot")
      (.alt (seqs [litStr "can", lit apos, litStr "t"]) (litStr "unable to")),
    .wb, dotUpTo 30, .wb, grp ["see", "view", "access", "process"], .wb,
    dotUpTo 40, .wb, grp ["image", "photo", "picture"], .wb]

/-- Pattern `\bno\s+(image|photo|picture)\s+(was\s+)?(provided|attached|found|included)\b`. -/
def patEn3 : RE :=
  seqs [.wb, litStr "no", wsPlus, grp ["image", "photo", "picture"], wsPlus,
    opt (seqs [litStr "was", wsPlus]),
    grp ["provided", "attached", "found", "included"], .wb]

/-- Pattern matching `i`, whitespace, `do not` or the
`don`-apostrophe-`t` contraction, whitespace, a perception verb with a
closing boundary, `.{0,30}`, and an image noun. -/
def patEn4 : RE :=
  seqs [.wb, litStr "i", wsPlus,
    .alt (seqs [litStr "do", wsPlus, litStr "not"])
      (seqs [litStr "don", lit apos, litStr "t"]),
    wsPlus, grp ["see", "have", "receive"], .wb, dotUpTo 30, .wb,
    grp ["image", "photo", "picture"], .wb]

/-- Pattern `\b(env[ií]a?|adjunta?|proporciona?|comparte?)\b.{0,40}\b(imagen|foto|fotograf[ií]a)\b`. -/
def patEs1 : RE :=
  seqs [.wb,
    .alt (seqs [litStr "env", anyOf "ií", opt (lit 'a')])
      (.alt (.seq (litStr "adjunt") (opt (lit 'a')))
        (.alt (.seq (litStr "proporcion") (opt (lit 'a')))
          (.seq (litStr "compart") (opt (lit 'e'))))),
    .wb, dotUpTo 40, .wb,
    .alt (litStr "imagen")
      (.alt (litStr "foto") (seqs [litStr "fotograf", anyOf "ií", lit 'a'])),
    .wb]

/-- Pattern `\bno\s+puedo\b.{0,30}\b(ver|acceder|procesar)\b.{0,40}\b(imagen|foto)\b`. -/
def patEs2 : RE :=
  seqs [.wb, litStr "no", wsPlus, litStr "puedo", .wb, dotUpTo 30, .wb,
    grp ["ver", "acceder", "procesar"], .wb, dotUpTo 40, .wb,
    grp ["imagen", "foto"], .wb]

/-- Pattern `\bno\s+(se\s+ha\s+|hay\s+)?(proporcionado|adjuntado|enviado)\b.{0,30}\b(imagen|foto)\b`. -/
def patEs3 : RE :=
  seqs [.wb, litStr "no", wsPlus,
    opt (.alt (seqs [litStr "se", wsPlus, litStr "ha", wsPlus])
      (seqs [litStr "hay", wsPlus])),
    grp ["proporcionado", "adjuntado", "enviado"], .wb, dotUpTo 30, .wb,
    grp ["imagen", "foto"], .wb]

/-- Pattern `\bno\s+(veo|tengo|recibo)\b.{0,30}\b(imagen|foto)\b`. -/
def patEs4 : RE :=
  seqs [.wb, litStr "no", wsPlus, grp ["veo", "tengo", "recibo"], .wb,
    dotUpTo 30, .wb, grp ["imagen", "foto"], .wb]

/-- Pattern `\b(sende?|lade?\s+hoch|h[äa]nge?\s+an)\b.{0,40}\b(bild|foto|abbildung)\b`. -/
def patDe1 : RE :=
  seqs [.wb,
    .alt (.seq (litStr "send") (opt (lit 'e')))
      (.alt (seqs [litStr "lad", opt (lit 'e'), wsPlus, litStr "hoch"])
        (seqs [lit 'h', anyOf "äa", litStr "ng", opt (lit 'e'), wsPlus,
          litStr "an"])),
    .wb, dotUpTo 40, .wb, grp ["bild", "foto", "abbildung"], .wb]

/-- Pattern `\bkann\s+kein\b.{0,30}\b(bild|foto|abbildung)\b`. -/
def patDe2 : RE :=
  seqs [.wb, litStr "kann", wsPlus, litStr "kein", .wb, dotUpTo 30, .wb,
    grp ["bild", "foto", "abbildung"], .wb]

/-- Pattern `\b(kein|keine)\s+(bild|foto|abbildung)\b.{0,30}\b(vorhanden|gefunden|angeh[äa]ngt)\b`. -/
def patDe3 : RE :=
  seqs [.wb, grp ["kein", "keine"], wsPlus, grp ["bild", "foto", "abbildung"],
    .wb, dotUpTo 30, .wb,
    .alt (litStr "vorhanden")
      (.alt (litStr "gefunden")
        (seqs [litStr "angeh", anyOf "äa", litStr "ngt"])),
    .wb]

/-- Pattern `\b(envoyer|joindre|fournir|partager)\b.{0,40}\b(image|photo)\b`. -/
def patFr1 : RE :=
  seqs [.wb, grp ["envoyer", "joindre", "fournir", "partager"], .wb,
    dotUpTo 40, .wb, grp ["image", "photo"], .wb]

/-- Pattern `\bne\s+(peux|suis)\s+pas\b.{0,30}\b(voir|acc[eé]der|traiter)\b.{0,40}\b(image|photo)\b`. -/
def patFr2 : RE :=
  seqs [.wb, litStr "ne", wsPlus, grp ["peux", "suis"], wsPlus, litStr "pas",
    .wb, dotUpTo 30, .wb,
    .alt (litStr "voir")
      (.alt (seqs [litStr "acc", anyOf "eé", litStr "der"]) (litStr "traiter")),
    .wb, dotUpTo 40, .wb, grp ["image", "photo"], .wb]

/-- Pattern `\baucune?\s+(image|photo)\b.{0,30}\b(fournie?|jointe?|trouv[ée]e?)\b`. -/
def patFr3 : RE :=
  seqs [.wb, litStr "aucun", opt (lit 'e'), wsPlus, grp ["image", "photo"],
    .wb, dotUpTo 30, .wb,
    .alt (.seq (litStr "fourni") (opt (lit 'e')))
      (.alt (.seq (litStr "joint") (opt (lit 'e')))
        (seqs [litStr "trouv", anyOf "ée", opt (lit 'e')])),
    .wb]

/-- Pattern `\b(invia|allega|fornisci|condividi)\b.{0,40}\b(immagine|foto)\b`. -/
def patIt1 : RE :=
  seqs [.wb, grp ["invia", "allega", "fornisci", "condividi"], .wb,
    dotUpTo 40, .wb, grp ["immagine", "foto"], .wb]

/-- Pattern `\bnon\s+posso\b.{0,30}\b(vedere|accedere|elaborare)\b.{0,40}\b(immagine|foto)\b`. -/
def patIt2 : RE :=
  seqs [.wb, litStr "non", wsPlus, litStr "posso", .wb, dotUpTo 30, .wb,
    grp ["vedere", "accedere", "elaborare"], .wb, dotUpTo 40, .wb,
    grp ["immagine", "foto"], .wb]

/-- Pattern `\bnessuna?\s+(immagine|foto)\b.{0,30}\b(fornita|allegata|trovata)\b`. -/
def patIt3 : RE :=
  seqs [.wb, litStr "nessun", opt (lit 'a'), wsPlus, grp ["immagine", "foto"],
    .wb, dotUpTo 30, .wb, grp ["fornita", "allegata", "trovata"], .wb]

/-- The full pattern tuple of `_looks_like_missing_image_response`, in
source order. -/
def missing_image_patterns : List RE :=
  [patEn1, patEn2, patEn3, patEn4,
   patEs1, patEs2, patEs3, patEs4,
   patDe1, patDe2, patDe3,
   patFr1, patFr2, patFr3,
   patIt1, patIt2, patIt3]

/-- Embeds `OllamaClient._looks_like_missing_image_response`:
`normalized = text.strip().lower()`, `False` on an empty normalised text,
else `True` iff any pattern matches.  (`String.toLower` lower-cases the
ASCII range; the pattern letters are already lower case.) -/
def looks_like_missing_image_response (text : String) : Bool :=
  let normalized := pyLower (pyStrip text)
  if normalized = "" then false
  else missing_image_patterns.any (fun p => reSearch p normalized)

/-! ## Image chat with fallback (`chat_with_image`, `_generate_with_image`)

`chat_with_image` runs the shared retry loop against `/api/chat`; on a
2xx reply whose text trips the no-image detector, or on an HTTP status in
`{400, 404, 422}`, it returns the result of one call to
`_generate_with_image`, which runs the same retry loop against
`/api/generate` and never falls back further (its `HTTPStatusError`
branch raises `OllamaError` unconditionally). -/

/-- The attempt/raise behaviour of `OllamaClient._generate_with_image`:
the shared retry loop with its message strings (a non-2xx status raises
`OllamaError`, no fallback). -/
def generate_with_image_call (retries : Nat) (g : Nat → AttemptOutcome) :
    Nat × CallResult :=
  retryLoop retries g "Ollama image generate request timed out"
    "Could not reach Ollama" "Empty image generate response from Ollama"

/-- The retry loop body of `OllamaClient.chat_with_image`.  Returns the
settled result and the number of fallback hops to
`_generate_with_image` taken (`g` abstracts the fallback call's transport
outcomes). -/
def chatWithImageGo (retries : Nat) (f g : Nat → AttemptOutcome) :
    Nat → Nat → CallResult × Nat
  | _, 0 => (.ollamaErr "Unexpected Ollama failure", 0)
  | attempt, r + 1 =>
    match f attempt with
    | .success t =>
      let text := pyStrip t
      if text = "" then (.ollamaErr "Empty image chat response from Ollama", 0)
      else if looks_like_missing_image_response text then
        ((generate_with_image_call retries g).2, 1)
      else (.ok text, 0)
    | .timeout =>
      if attempt < retries then chatWithImageGo retries f g (attempt + 1) r
      else (.timeoutErr "Ollama image chat request timed out", 0)
    | .connError =>
      if attempt < retries then chatWithImageGo retries f g (attempt + 1) r
      else (.connectionErr "Could not reach Ollama", 0)
    | .httpError s body =>
      if s = 400 ∨ s = 404 ∨ s = 422 then
        ((generate_with_image_call retries g).2, 1)
      else (.ollamaErr (httpMsg s body), 0)

/-- One full run of `OllamaClient.chat_with_image`. -/
def chat_with_image_run (retries : Nat) (f g : Nat → AttemptOutcome) :
    CallResult × Nat :=
  chatWithImageGo retries f g 0 (retries + 1)

/-! ## Theorems -/

/-- C9: the no-image detector flags the canned English request phrase and
equivalent request/cannot-see phrases in Spanish, German, French and
Italian, and does not flag the genuine analysis reply about a red
bicycle. -/
theorem c9_fallback_detector_phrases :
    looks_like_missing_image_response
      "Please attach an image so I can help" = true ∧
    looks_like_missing_image_response "No puedo ver la imagen" = true ∧
    looks_like_missing_image_response "Ich kann kein Bild sehen" = true ∧
    looks_like_missing_image_response "Aucune image fournie" = true ∧
    looks_like_missing_image_response "Nessuna immagine fornita" = true ∧
    looks_like_missing_image_response
      "The image shows a red bicycle" = false := by
  refine ⟨?_, ?_, ?_, ?_, ?_, ?_⟩ <;> decide

/-- C3 (divergence witness): with a configured API key and distinct local
and cloud base URLs, a `-cloud` model's chat and capability-introspection
requests target the cloud base URL with the `Authorization: Bearer <key>`
header, but its generate request targets the cloud base URL with **no**
Authorization header (`generate` builds its headers without the model
argument); with no key configured, all three target the local base URL
with no header. -/
theorem c3_cloud_model_generate_lacks_auth_header :
    chat_request
        ⟨"http://localhost:11434", "https://ollama.com", some "secret-key",
          "Bearer"⟩ "gpt-oss:120b-cloud" =
      ("https://ollama.com/api/chat",
        some ("Authorization", "Bearer secret-key")) ∧
    show_request
        ⟨"http://localhost:11434", "https://ollama.com", some "secret-key",
          "Bearer"⟩ "gpt-oss:120b-cloud" =
      ("https://ollama.com/api/show",
        some ("Authorization", "Bearer secret-key")) ∧
    generate_request
        ⟨"http://localhost:11434", "https://ollama.com", some "secret-key",
          "Bearer"⟩ "gpt-oss:120b-cloud" =
      ("https://ollama.com/api/generate", none) ∧
    chat_request
        ⟨"http://localhost:11434", "https://ollama.com", none, "Bearer"⟩
        "gpt-oss:120b-cloud" =
      ("http://localhost:11434/api/chat", none) ∧
    show_request
        ⟨"http://localhost:11434", "https://ollama.com", none, "Bearer"⟩
        "gpt-oss:120b-cloud" =
      ("http://localhost:11434/api/show", none) ∧
    generate_request
        ⟨"http://localhost:11434", "https://ollama.com", none, "Bearer"⟩
        "gpt-oss:120b-cloud" =
      ("http://localhost:11434/api/generate", none) := by
  refine ⟨?_, ?_, ?_, ?_, ?_, ?_⟩ <;> decide

/-- C5 (counterexample): a turn with the unknown role `banana` is not
dropped from the flattened single-prompt transcript — it is rendered with
the `Assistant` label — so the transcript differs from the one obtained
with the turn removed. -/
theorem c5_counterexample_unknown_role_kept_in_prompt :
    compose_prompt "hi" [⟨"banana", "weird", none⟩] ≠
      compose_prompt "hi" [] ∧
    compose_prompt "hi" [⟨"banana", "weird", none⟩] =
      "Assistant: weird\nUser: hi\nAssistant:" := by
  refine ⟨?_, ?_⟩ <;> decide

/-- C2 (counterexample): a backend reply listing the name `a` twice
yields a result containing `a` twice — `list_models` does not
deduplicate. -/
theorem c2_counterexample_duplicate_name_kept :
    ¬ (list_models_result [some "a", some "a"]).Nodup := by
  intro h
  have hperm : List.Perm (list_models_result [some "a", some "a"]) ["a", "a"] :=
    List.perm_insertionSort (α := String) (· ≤ ·)
      (list_models_names [some "a", some "a"])
  exact (by decide : ¬ (["a", "a"] : List String).Nodup)
    (hperm.nodup_iff.mp h)

/-- C2 (amended): for every backend reply, `list_models` returns the
ascending-sorted list of the trimmed, non-empty model names; the result
is a permutation of those names, so duplicates in the reply are preserved
rather than removed. -/
theorem c2_list_models_sorted_perm (models_raw : List (Option String)) :
    (list_models_result models_raw).Sorted (· ≤ ·) ∧
    List.Perm (list_models_result models_raw) (list_models_names models_raw) :=
  ⟨List.sorted_insertionSort _ _, List.perm_insertionSort _ _⟩

/-! ### Retry-loop lemmas for C1 -/

/-- The retry loop never performs more iterations than it has left. -/
theorem retryLoopGo_le (retries : Nat) (f : Nat → AttemptOutcome)
    (t c e : String) :
    ∀ r a, (retryLoopGo retries f t c e a r).1 ≤ r := by
  intro r
  induction r with
  | zero => intro a; simp [retryLoopGo]
  | succ n ih =>
    intro a
    simp only [retryLoopGo]
    cases f a with
    | success s => simp only; split <;> simp
    | timeout =>
      simp only
      split
      · exact Nat.succ_le_succ (ih (a + 1))
      · simp
    | connError =>
      simp only
      split
      · exact Nat.succ_le_succ (ih (a + 1))
      · simp
    | httpError s b => simp

/-- One transport-failing non-final iteration of the retry loop recurses
on the next attempt and counts one more attempt. -/
theorem retryLoopGo_transport_step (retries : Nat) (f : Nat → AttemptOutcome)
    (t c e : String) (a r : Nat)
    (h : f a = .timeout ∨ f a = .connError) (hlt : a < retries) :
    retryLoopGo retries f t c e a (r + 1) =
      ((retryLoopGo retries f t c e (a + 1) r).1 + 1,
        (retryLoopGo retries f t c e (a + 1) r).2) := by
  rcases h with h | h <;> simp [retryLoopGo, h, hlt]

/-- A transport failure on the final attempt raises the typed error of
its failure kind. -/
theorem retryLoopGo_transport_last (retries : Nat) (f : Nat → AttemptOutcome)
    (t c e : String) (r : Nat)
    (h : f retries = .timeout ∨ f retries = .connError) :
    retryLoopGo retries f t c e retries (r + 1) =
      (1, if f retries = .timeout then .timeoutErr t else .connectionErr c) := by
  rcases h with h | h <;> simp [retryLoopGo, h, Nat.lt_irrefl]

/-- On persistently failing transport, the loop runs all its remaining
iterations and settles on the typed error of the last attempt. -/
theorem retryLoopGo_all_transport (retries : Nat) (f : Nat → AttemptOutcome)
    (t c e : String)
    (hfail : ∀ i, i ≤ retries → f i = .timeout ∨ f i = .connError) :
    ∀ k, k ≤ retries →
      retryLoopGo retries f t c e (retries - k) (k + 1) =
        (k + 1,
          if f retries = .timeout then .timeoutErr t else .connectionErr c) := by
  intro k
  induction k with
  | zero =>
    intro _
    rw [Nat.sub_zero,
      retryLoopGo_transport_last retries f t c e 0
        (hfail retries (Nat.le_refl _))]
  | succ n ih =>
    intro hn
    rw [retryLoopGo_transport_step retries f t c e _ _
        (hfail _ (Nat.sub_le _ _)) (by omega),
      show retries - (n + 1) + 1 = retries - n by omega, ih (by omega)]

/-- C1: for every configured retry count `R`, when every attempt of a
`generate` or `chat` call fails at the transport layer, exactly `R + 1`
HTTP attempts are performed and the typed error of the last failure kind
is raised (`OllamaTimeoutError` for a timeout, `OllamaConnectionError`
for a connection failure); and for every outcome sequence whatsoever, at
most `R + 1` attempts are made. -/
theorem c1_retry_exhaustion (R : Nat) (f : Nat → AttemptOutcome)
    (hfail : ∀ i, i ≤ R → f i = .timeout ∨ f i = .connError) :
    ((generate_call R f).1 = R + 1 ∧
      (f R = .timeout →
        (generate_call R f).2 = .timeoutErr "Ollama request timed out") ∧
      (f R = .connError →
        (generate_call R f).2 = .connectionErr "Could not reach Ollama")) ∧
    ((chat_call R f).1 = R + 1 ∧
      (f R = .timeout →
        (chat_call R f).2 = .timeoutErr "Ollama chat request timed out") ∧
      (f R = .connError →
        (chat_call R f).2 = .connectionErr "Could not reach Ollama")) ∧
    (∀ g : Nat → AttemptOutcome,
      (generate_call R g).1 ≤ R + 1 ∧ (chat_call R g).1 ≤ R + 1) := by
  have key : ∀ t c e, retryLoopGo R f t c e 0 (R + 1) =
      (R + 1, if f R = .timeout then .timeoutErr t else .connectionErr c) := by
    intro t c e
    have := retryLoopGo_all_transport R f t c e hfail R (Nat.le_refl _)
    simpa using this
  refine ⟨⟨?_, ?_, ?_⟩, ⟨?_, ?_, ?_⟩, ?_⟩
  · simp [generate_call, retryLoop, key]
  · intro h; simp [generate_call, retryLoop, key, h]
  · intro h
    have hne : f R ≠ .timeout := by simp [h]
    simp [generate_call, retryLoop, key, hne]
  · simp [chat_call, retryLoop, key]
  · intro h; simp [chat_call, retryLoop, key, h]
  · intro h
    have hne : f R ≠ .timeout := by simp [h]
    simp [chat_call, retryLoop, key, hne]
  · intro g
    exact ⟨retryLoopGo_le R g _ _ _ (R + 1) 0, retryLoopGo_le R g _ _ _ (R + 1) 0⟩

/-- C1 (witness): with one configured retry and every attempt timing out,
a generate call performs exactly two attempts and raises the timeout
error. -/
theorem c1_retry_exhaustion_witness :
    (generate_call 1 (fun _ => .timeout)).1 = 2 ∧
    (generate_call 1 (fun _ => .timeout)).2 =
      .timeoutErr "Ollama request timed out" :=
  ⟨(c1_retry_exhaustion 1 (fun _ => .timeout)
      (fun _ _ => Or.inl rfl)).1.1,
   (c1_retry_exhaustion 1 (fun _ => .timeout)
      (fun _ _ => Or.inl rfl)).1.2.1 rfl⟩

/-! ### Download-cancellation lemmas for C4 -/

/-- If the cancel token is set by the last check, the pull loop
terminates as `Cancelled`. -/
theorem pull_go_cancelled (cancelSet : Nat → Bool)
    (finalResult : Option String) :
    ∀ k i, cancelSet (i + k) = true →
      pullGo cancelSet finalResult i k = .cancelled := by
  intro k
  induction k with
  | zero =>
    intro i h
    have h' : cancelSet i = true := by simpa using h
    simp [pullGo, h']
  | succ n ih =>
    intro i h
    by_cases hc : cancelSet i = true
    · simp [pullGo, hc]
    · have : cancelSet (i + 1 + n) = true := by
        have : i + 1 + n = i + (n + 1) := by omega
        rw [this]; exact h
      simp [pullGo, hc, ih (i + 1) this]

/-- C4: once the cancel token of a running download job is set (at some
check the job still reaches, the token never being unset again), the job
terminates as `Cancelled`, the handler reports the cancelled-outcome
message, and a cancelled job is reported neither as downloaded
successfully nor as failed. -/
theorem c4_cancel_terminal_state (cancelSet : Nat → Bool)
    (nChunks j : Nat) (finalResult : Option String)
    (hmono : ∀ a b, a ≤ b → cancelSet a = true → cancelSet b = true)
    (hj : j ≤ nChunks) (hset : cancelSet j = true) :
    pull_model_run cancelSet nChunks finalResult = .cancelled ∧
    pull_report (pull_model_run cancelSet nChunks finalResult) =
      .cancelledMsg ∧
    pull_report (pull_model_run cancelSet nChunks finalResult) ≠ .done ∧
    pull_report (pull_model_run cancelSet nChunks finalResult) ≠ .failed := by
  have hrun : pull_model_run cancelSet nChunks finalResult = .cancelled := by
    have hlast : cancelSet (0 + nChunks) = true :=
      hmono j (0 + nChunks) (by omega) hset
    exact pull_go_cancelled cancelSet finalResult nChunks 0 hlast
  refine ⟨hrun, ?_, ?_, ?_⟩ <;> simp [hrun, pull_report]

/-- C4 (witness): a three-chunk pull whose cancel token is set from the
second check on terminates as `Cancelled` and is reported with the
cancelled message. -/
theorem c4_cancel_terminal_state_witness :
    pull_model_run (fun i => decide (1 ≤ i)) 3 none = .cancelled ∧
    pull_report (pull_model_run (fun i => decide (1 ≤ i)) 3 none) =
      .cancelledMsg :=
  ⟨(c4_cancel_terminal_state (fun i => decide (1 ≤ i)) 3 1 none
      (fun a b hab ha => by
        simp only [decide_eq_true_eq] at ha ⊢; omega)
      (by decide) (by decide)).1,
   (c4_cancel_terminal_state (fun i => decide (1 ≤ i)) 3 1 none
      (fun a b hab ha => by
        simp only [decide_eq_true_eq] at ha ⊢; omega)
      (by decide) (by decide)).2.1⟩

/-! ### Fallback lemmas for C6 -/

/-- The image-chat loop takes at most one fallback hop, and whenever it
takes one its settled result is exactly the result of the single
`_generate_with_image` call. -/
theorem chatWithImageGo_hops (retries : Nat) (f g : Nat → AttemptOutcome) :
    ∀ r a, (chatWithImageGo retries f g a r).2 ≤ 1 ∧
      ((chatWithImageGo retries f g a r).2 = 1 →
        (chatWithImageGo retries f g a r).1 =
          (generate_with_image_call retries g).2) := by
  intro r
  induction r with
  | zero => intro a; simp [chatWithImageGo]
  | succ n ih =>
    intro a
    simp only [chatWithImageGo]
    cases f a with
    | success s =>
      simp only
      split
      · simp
      · split <;> simp
    | timeout =>
      simp only
      split
      · exact ih (a + 1)
      · simp
    | connError =>
      simp only
      split
      · exact ih (a + 1)
      · simp
    | httpError s b =>
      simp only
      split <;> simp

/-- Transport failures on attempts strictly before a reached attempt are
retried, advancing the image-chat loop to that attempt. -/
theorem chatWithImageGo_advance (retries : Nat) (f g : Nat → AttemptOutcome) :
    ∀ k a r, a + k ≤ retries →
      (∀ i, a ≤ i → i < a + k → f i = .timeout ∨ f i = .connError) →
      chatWithImageGo retries f g a (k + (r + 1)) =
        chatWithImageGo retries f g (a + k) (r + 1) := by
  intro k
  induction k with
  | zero =>
    intro a r _ _
    simp
  | succ n ih =>
    intro a r hle hpre
    have htrans : f a = .timeout ∨ f a = .connError :=
      hpre a (Nat.le_refl a) (by omega)
    have halt : a < retries := by omega
    have hstep : chatWithImageGo retries f g a ((n + 1) + (r + 1)) =
        chatWithImageGo retries f g (a + 1) (n + (r + 1)) := by
      rw [show (n + 1) + (r + 1) = (n + (r + 1)) + 1 by omega]
      rcases htrans with h | h <;> simp [chatWithImageGo, h, halt]
    rw [hstep,
      ih (a + 1) r (by omega) (fun i h1 h2 => hpre i (by omega) (by omega)),
      show a + 1 + n = a + (n + 1) by omega]

/-- After the retried transport failures, a full image-chat run settles
at the first attempt with a non-transport outcome. -/
theorem chat_with_image_run_reaches (retries : Nat)
    (f g : Nat → AttemptOutcome) (a : Nat) (ha : a ≤ retries)
    (hpre : ∀ i, i < a → f i = .timeout ∨ f i = .connError) :
    chat_with_image_run retries f g =
      chatWithImageGo retries f g a (retries - a + 1) := by
  have h := chatWithImageGo_advance retries f g a 0 (retries - a)
    (by omega) (fun i h1 h2 => hpre i (by omega))
  rw [chat_with_image_run, show retries + 1 = a + (retries - a + 1) by omega,
    h]
  simp

/-- C6: an image-bearing chat request takes at most one fallback hop to
`/api/generate`; when a hop is taken the fallback call's own outcome
(success or failure) is returned unchanged, with no second hop; when the
reached attempt fails with HTTP 400, 404 or 422, or returns text the
no-image detector flags, exactly one fallback hop is taken and its
result returned; and a reached HTTP status outside `{400, 404, 422}`
raises the generic error with no fallback at all. -/
theorem c6_single_fallback_hop (retries : Nat) (f g : Nat → AttemptOutcome) :
    (chat_with_image_run retries f g).2 ≤ 1 ∧
    ((chat_with_image_run retries f g).2 = 1 →
      (chat_with_image_run retries f g).1 =
        (generate_with_image_call retries g).2) ∧
    (∀ a s b, a ≤ retries →
      (∀ i, i < a → f i = .timeout ∨ f i = .connError) →
      f a = .httpError s b → (s = 400 ∨ s = 404 ∨ s = 422) →
      chat_with_image_run retries f g =
        ((generate_with_image_call retries g).2, 1)) ∧
    (∀ a t, a ≤ retries →
      (∀ i, i < a → f i = .timeout ∨ f i = .connError) →
      f a = .success t → pyStrip t ≠ "" →
      looks_like_missing_image_response (pyStrip t) = true →
      chat_with_image_run retries f g =
        ((generate_with_image_call retries g).2, 1)) ∧
    (∀ a s b, a ≤ retries →
      (∀ i, i < a → f i = .timeout ∨ f i = .connError) →
      f a = .httpError s b → ¬ (s = 400 ∨ s = 404 ∨ s = 422) →
      chat_with_image_run retries f g = (.ollamaErr (httpMsg s b), 0)) := by
  refine ⟨(chatWithImageGo_hops retries f g (retries + 1) 0).1,
    (chatWithImageGo_hops retries f g (retries + 1) 0).2, ?_, ?_, ?_⟩
  · intro a s b ha hpre hf hs
    rw [chat_with_image_run_reaches retries f g a ha hpre]
    simp only [chatWithImageGo, hf]
    rw [if_pos hs]
  · intro a t ha hpre hf htext hdet
    rw [chat_with_image_run_reaches retries f g a ha hpre]
    simp [chatWithImageGo, hf, htext, hdet]
  · intro a s b ha hpre hf hs
    rw [chat_with_image_run_reaches retries f g a ha hpre]
    simp only [chatWithImageGo, hf]
    rw [if_neg hs]

/-- C6 (witness): with no retries and a fallback oracle answering
`fine`, a first-attempt HTTP 400 takes exactly one fallback hop and
returns the fallback call's result, a first-attempt reply flagged by the
no-image detector does the same, and a first-attempt HTTP 500 raises the
generic error with zero fallback hops. -/
theorem c6_single_fallback_hop_witness :
    (chat_with_image_run 0 (fun _ => .httpError 400 "bad")
        (fun _ => .success "fine") =
      ((generate_with_image_call 0 (fun _ => .success "fine")).2, 1)) ∧
    (chat_with_image_run 0 (fun _ => .success "No puedo ver la imagen")
        (fun _ => .success "fine") =
      ((generate_with_image_call 0 (fun _ => .success "fine")).2, 1)) ∧
    chat_with_image_run 0 (fun _ => .httpError 500 "oops")
        (fun _ => .success "fine") =
      (.ollamaErr (httpMsg 500 "oops"), 0) :=
  ⟨(c6_single_fallback_hop 0 (fun _ => .httpError 400 "bad")
      (fun _ => .success "fine")).2.2.1 0 400 "bad" (Nat.le_refl 0)
    (by decide) rfl (by decide),
   (c6_single_fallback_hop 0 (fun _ => .success "No puedo ver la imagen")
      (fun _ => .success "fine")).2.2.2.1 0 "No puedo ver la imagen"
    (Nat.le_refl 0) (by decide) rfl (by decide) (by decide),
   (c6_single_fallback_hop 0 (fun _ => .httpError 500 "oops")
      (fun _ => .success "fine")).2.2.2.2 0 500 "oops" (Nat.le_refl 0)
    (by decide) rfl (by decide)⟩

/-! ### Inventory-cache theorem for C10 -/

/-- C10: the orchestrator serves its cached model list without contacting
the backend exactly when the cache is non-empty and younger than the
60-second TTL; an empty cache always triggers a refresh attempt; and a
failed refresh leaves the cached list and its timestamp unchanged,
returns the stale list, and leaves the very next call (at any later
time) refreshing again. -/
theorem c10_inventory_cache_policy (st : OrchState) (now : ℚ)
    (fetch : FetchOutcome) :
    ((get_models st now fetch).2.2 = false ↔
      (now - st.models_cache_at < models_cache_ttl ∧
        st.models_cache ≠ [])) ∧
    (st.models_cache = [] → (get_models st now fetch).2.2 = true) ∧
    (fetch = .failure →
      (get_models st now fetch).1 = st.models_cache ∧
      (get_models st now fetch).2.1 = st) ∧
    ((get_models st now fetch).2.2 = true → fetch = .failure →
      ∀ now2 fetch2, now ≤ now2 →
        (get_models st now2 fetch2).2.2 = true) := by
  constructor
  · unfold get_models
    split
    · simp_all
    · rename_i hcond
      cases fetch <;> simp_all
  constructor
  · intro hempty
    unfold get_models
    split
    · simp_all
    · cases fetch <;> simp
  constructor
  · intro hfail
    subst hfail
    unfold get_models
    split <;> simp
  · intro hforced hfail now2 fetch2 hle
    subst hfail
    have hcond : ¬ (now - st.models_cache_at < models_cache_ttl ∧
        st.models_cache ≠ []) := by
      intro hc
      unfold get_models at hforced
      rw [if_pos hc] at hforced
      simp at hforced
    unfold get_models
    rw [if_neg ?_]
    · cases fetch2 <;> simp
    · intro hc2
      exact hcond ⟨by
        have : now2 - st.models_cache_at < models_cache_ttl := hc2.1
        have hdiff : now - st.models_cache_at ≤ now2 - st.models_cache_at := by
          exact sub_le_sub_right hle _
        exact lt_of_le_of_lt hdiff this, hc2.2⟩

/-- C10 (witness): with an empty cache at time zero and a failing
refresh, the accessor contacts the backend, returns the empty list,
leaves the state unchanged, and contacts the backend again on the next
call. -/
theorem c10_inventory_cache_policy_witness :
    (get_models ⟨[], 0⟩ 0 .failure).2.2 = true ∧
    (get_models ⟨[], 0⟩ 0 .failure).1 = [] ∧
    (get_models ⟨[], 0⟩ 0 .failure).2.1 = (⟨[], 0⟩ : OrchState) ∧
    (get_models ⟨[], 0⟩ 1 (.ok [])).2.2 = true := by
  refine ⟨(c10_inventory_cache_policy ⟨[], 0⟩ 0 .failure).2.1 rfl,
    ((c10_inventory_cache_policy ⟨[], 0⟩ 0 .failure).2.2.1 rfl).1,
    ((c10_inventory_cache_policy ⟨[], 0⟩ 0 .failure).2.2.1 rfl).2,
    (c10_inventory_cache_policy ⟨[], 0⟩ 1 (.ok [])).2.1 rfl⟩

/-! ### Composition lemmas for C5 -/

/-- The history loop of `_compose_messages` is the filter of the known
roles, mapped to text-only messages, in order. -/
theorem composeHistory_filter_map (turns : List ConversationTurn) :
    composeHistory turns =
      (turns.filter fun t => knownRole t.role).map
        (fun t => ⟨t.role, t.content, none⟩) := by
  induction turns with
  | nil => rfl
  | cons t ts ih =>
    by_cases h : knownRole t.role <;>
      simp [composeHistory, List.filter_cons, h, ih]

/-- The line loop of `_compose_prompt` maps every turn — no role is
dropped — to its labelled line, in order. -/
theorem composeLines_map (turns : List ConversationTurn) :
    composeLines turns =
      turns.map (fun t => roleLabel t.role ++ ": " ++ t.content) := by
  induction turns with
  | nil => rfl
  | cons t ts ih => simp [composeLines, ih]

/-- C5 (amended): both renderings preserve chronological order.  The
conversational messages list preserves each emitted turn's role verbatim
and silently drops turns whose role is not system/user/assistant/tool,
ending with the live user turn; the flattened transcript keeps every
turn — labelling system, tool and user turns accordingly and labelling
every other role, assistant and unknown alike, as `Assistant`. -/
theorem c5_compose_order_and_roles (prompt : String)
    (turns : List ConversationTurn) (imgs : Option (List String)) :
    ((compose_messages prompt turns imgs).map (fun m => (m.role, m.content)) =
      (turns.filter fun t => knownRole t.role).map
        (fun t => (t.role, t.content)) ++ [("user", prompt)]) ∧
    (turns ≠ [] → compose_prompt prompt turns =
      pyJoin "\n"
        (turns.map (fun t => roleLabel t.role ++ ": " ++ t.content) ++
          ["User: " ++ prompt, "Assistant:"])) := by
  constructor
  · simp only [compose_messages, composeHistory_filter_map]
    cases imgs with
    | none => simp [List.map_append, Function.comp]
    | some l =>
      by_cases hl : l.isEmpty <;> simp [hl, List.map_append, Function.comp]
  · intro hne
    have : ¬ turns.isEmpty := by
      cases turns with
      | nil => exact absurd rfl hne
      | cons a as => simp
    simp [compose_prompt, this, composeLines_map]

/-- C5 (amended, witness): the two renderings at a concrete history
holding a system turn, an unknown-role turn and a user turn. -/
theorem c5_compose_order_and_roles_witness :
    ((compose_messages "hi"
        [⟨"system", "s", none⟩, ⟨"banana", "weird", none⟩,
          ⟨"user", "q", none⟩] none).map (fun m => (m.role, m.content)) =
      [("system", "s"), ("user", "q"), ("user", "hi")]) ∧
    compose_prompt "hi"
        [⟨"system", "s", none⟩, ⟨"banana", "weird", none⟩,
          ⟨"user", "q", none⟩] =
      "System: s\nAssistant: weird\nUser: q\nUser: hi\nAssistant:" := by
  have h := c5_compose_order_and_roles "hi"
    [⟨"system", "s", none⟩, ⟨"banana", "weird", none⟩, ⟨"user", "q", none⟩]
    none
  refine ⟨?_, ?_⟩
  · rw [h.1]; decide
  · rw [h.2 (by decide)]; decide

/-! ### Capability-cache lemmas for C7 -/

/-- A cache hit returns the cached answer without introspecting. -/
theorem supports_vision_step_hit (cache : VisionCache) (model : String)
    (b : Bool) (sh : ShowOutcome) (h : cacheLookup cache model = some b) :
    supports_vision_step cache model sh = (some b, cache, false) := by
  unfold supports_vision_step
  rw [h]

/-- Updating the cache at a model makes lookups of that model return the
new value. -/
theorem cacheLookup_cacheInsert (cache : VisionCache) (model : String)
    (b : Bool) : cacheLookup (cacheInsert cache model b) model = some b := by
  induction cache with
  | nil => simp [cacheInsert, cacheLookup]
  | cons kv rest ih =>
    obtain ⟨k, v⟩ := kv
    by_cases hk : k = model <;> simp [cacheInsert, cacheLookup, hk, ih]

/-- For an uncached model, one `supports_vision` call introspects; a
definitive answer is written to the cache and an indeterminate answer
leaves the cache unchanged. -/
theorem supports_vision_step_uncached (cache : VisionCache) (model : String)
    (sh : ShowOutcome) (h : cacheLookup cache model = none) :
    (supports_vision_step cache model sh).2.2 = true ∧
    ((supports_vision_step cache model sh).1 = none →
      (supports_vision_step cache model sh).2.1 = cache) ∧
    (∀ b, (supports_vision_step cache model sh).1 = some b →
      (supports_vision_step cache model sh).2.1 =
        cacheInsert cache model b) := by
  unfold supports_vision_step
  rw [h]
  cases sh with
  | failure => simp
  | ok capabilities model_info_keys =>
    cases capabilities with
    | none =>
      cases model_info_keys with
      | none => simp
      | some keys =>
        by_cases hk : modelInfoHasVision keys <;> simp [hk]
    | some caps =>
      by_cases h1 : capsHaveVision caps
      · simp [h1]
      · by_cases h2 : caps.isEmpty
        · cases model_info_keys with
          | none => simp [h1, h2]
          | some keys =>
            by_cases hk : modelInfoHasVision keys <;> simp [h1, h2, hk]
        · simp [h1, h2]

/-- C7: a definitive capability answer (true or false) is stored in the
cache and a second consecutive lookup returns it without introspecting;
an indeterminate answer is never stored, the cache stays unchanged, and
the next lookup introspects again. -/
theorem c7_capability_cache_policy (cache : VisionCache) (model : String)
    (sh : ShowOutcome) :
    (∀ b, (supports_vision_step cache model sh).1 = some b →
      cacheLookup (supports_vision_step cache model sh).2.1 model = some b ∧
      ∀ sh2, supports_vision_step
          (supports_vision_step cache model sh).2.1 model sh2 =
        (some b, (supports_vision_step cache model sh).2.1, false)) ∧
    ((supports_vision_step cache model sh).1 = none →
      (supports_vision_step cache model sh).2.1 = cache ∧
      (supports_vision_step cache model sh).2.2 = true ∧
      ∀ sh2, (supports_vision_step cache model sh2).2.2 = true) := by
  cases hlook : cacheLookup cache model with
  | some b0 =>
    have hstep := supports_vision_step_hit cache model b0 sh hlook
    constructor
    · intro b hb
      rw [hstep] at hb
      simp only at hb
      obtain rfl : b0 = b := Option.some.inj hb
      rw [hstep]
      exact ⟨hlook, fun sh2 => supports_vision_step_hit cache model b0 sh2 hlook⟩
    · intro hnone
      rw [hstep] at hnone
      simp at hnone
  | none =>
    obtain ⟨hintro, hnoneCache, hsomeCache⟩ :=
      supports_vision_step_uncached cache model sh hlook
    constructor
    · intro b hb
      have hc := hsomeCache b hb
      rw [hc]
      exact ⟨cacheLookup_cacheInsert cache model b,
        fun sh2 => supports_vision_step_hit _ model b sh2
          (cacheLookup_cacheInsert cache model b)⟩
    · intro hnone
      exact ⟨hnoneCache hnone, hintro,
        fun sh2 => (supports_vision_step_uncached cache model sh2 hlook).1⟩

/-- C7 (witness): an introspection reporting the `vision` capability tag
is cached, and the next lookup is served from the cache without
introspecting. -/
theorem c7_capability_cache_policy_witness :
    supports_vision_step
        (supports_vision_step [] "llava" (.ok (some ["vision"]) none)).2.1
        "llava" .failure =
      (some true,
        (supports_vision_step [] "llava" (.ok (some ["vision"]) none)).2.1,
        false) :=
  ((c7_capability_cache_policy [] "llava" (.ok (some ["vision"]) none)).1
    true (by decide)).2 .failure

/-! ### Orchestration lemmas for C8 -/

/-- When no non-preferred inventory model reports vision support, the
scan finds nothing. -/
theorem visionScan_none (preferred : String) (cap : String → Option Bool) :
    ∀ models, (∀ m ∈ models, m ≠ preferred → cap m ≠ some true) →
      visionScan preferred cap models = none := by
  intro models
  induction models with
  | nil => intro _; rfl
  | cons m ms ih =>
    intro h
    have hrest : ∀ x ∈ ms, x ≠ preferred → cap x ≠ some true :=
      fun x hx => h x (List.mem_cons_of_mem _ hx)
    by_cases hm : m = preferred
    · simp [visionScan, hm, ih hrest]
    · have hcap : cap m ≠ some true := h m (List.mem_cons_self _ _) hm
      simp [visionScan, hm, hcap, ih hrest]

/-- The scan skips the preferred model and earlier non-vision models and
returns the first non-preferred model whose capability check succeeds. -/
theorem visionScan_first (preferred : String) (cap : String → Option Bool)
    (m : String) (hm : m ≠ preferred) (hcap : cap m = some true) :
    ∀ pre post, (∀ x ∈ pre, x = preferred ∨ cap x ≠ some true) →
      visionScan preferred cap (pre ++ m :: post) = some m := by
  intro pre
  induction pre with
  | nil =>
    intro post _
    simp [visionScan, hm, hcap]
  | cons x xs ih =>
    intro post h
    have hx := h x (List.mem_cons_self _ _)
    have hrest : ∀ y ∈ xs, y = preferred ∨ cap y ≠ some true :=
      fun y hy => h y (List.mem_cons_of_mem _ hy)
    rcases hx with hx | hx
    · simp [visionScan, hx, ih post hrest]
    · by_cases hxp : x = preferred
      · simp [visionScan, hxp, ih post hrest]
      · simp [visionScan, hxp, hx, ih post hrest]

/-- C8: with the vision task, when neither the preferred model nor any
inventory model reports vision support, `select_model` keeps the
preferred model with `changed = false` and `found_suitable = false`; and
when scanning, the preferred model is skipped and the first inventory
model whose capability check returns true is selected with
`changed = true` and `found_suitable = true`. -/
theorem c8_vision_model_selection (preferred : String)
    (models : List String) (cap : String → Option Bool) :
    ((cap preferred ≠ some true ∧
        ∀ m ∈ models, m ≠ preferred → cap m ≠ some true) →
      select_model "vision" preferred models cap = (preferred, false, false)) ∧
    (∀ pre m post, models = pre ++ m :: post →
      cap preferred ≠ some true →
      (∀ x ∈ pre, x = preferred ∨ cap x ≠ some true) →
      m ≠ preferred → cap m = some true →
      select_model "vision" preferred models cap = (m, true, true)) := by
  constructor
  · rintro ⟨hpref, hall⟩
    simp [select_model, hpref, visionScan_none preferred cap models hall]
  · rintro pre m post rfl hpref hpre hm hcap
    simp [select_model, hpref, visionScan_first preferred cap m hm hcap pre post hpre]

/-- C8 (witness): with inventory `["llama3", "llava-vision"]` and
preferred `llama3`, a capability map marking only `llava-vision` as
vision-capable yields the substitution `("llava-vision", true, true)`,
and an all-negative capability map yields `("llama3", false, false)`. -/
theorem c8_vision_model_selection_witness :
    select_model "vision" "llama3" ["llama3", "llava-vision"]
        (fun m => if m = "llava-vision" then some true else some false) =
      ("llava-vision", true, true) ∧
    select_model "vision" "llama3" ["llama3"] (fun _ => some false) =
      ("llama3", false, false) :=
  ⟨(c8_vision_model_selection "llama3" ["llama3", "llava-vision"]
      (fun m => if m = "llava-vision" then some true else some false)).2
    ["llama3"] "llava-vision" [] rfl (by decide) (by decide) (by decide)
    (by decide),
   (c8_vision_model_selection "llama3" ["llama3"]
      (fun _ => some false)).1 ⟨by decide, by decide⟩⟩

end OllamaBot
